import Mathlib

/-!
Verification of the audio capture/encode pipeline of the
`jules-theranotes` recorder component
(`src/frontend/components/audio-recorder.tsx`).

The component exists in several variants in the source file:

* a MediaRecorder-based variant (chunked encoded blobs, `ondataavailable`
  and `onstop` handlers, `downloadAudio` extension mapping,
  `transcribeAudio`, `resetRecording`);
* a WAV variant (raw `Float32Array` frames captured by a script
  processor, manual `encodeWAV` / `floatTo16BitPCM` encoding, a
  hard-coded `.wav` download extension).

JavaScript numbers are modelled as rationals (`ℚ`): every operation the
code performs on samples (comparison, `Math.min`/`Math.max`, scaling by
the exact powers-of-two-sized constants 32768/32767, truncation to an
integer by `DataView.setInt16`) is order-preserving and exact at the
inputs the claims speak about.  Byte buffers are `List Nat` with each
entry `< 256`; `DataView.setUint16/32` little-endian stores are modelled
by explicit `% 256` decompositions.
-/

namespace Theranotes

/-- JavaScript `ToInt16`-style truncation toward zero of a rational. -/
def jsTrunc (q : ℚ) : Int := if q < 0 then ⌈q⌉ else ⌊q⌋

/-- One sample of `floatTo16BitPCM` (audio-recorder.tsx, WAV variant):
`let s = Math.max(-1, Math.min(1, float32Array[i]));
 view.setInt16(offset, s < 0 ? s * 0x8000 : s * 0x7fff, true)`. -/
def floatTo16BitPCM1 (x : ℚ) : Int :=
  let s := max (-1) (min 1 x)
  if s < 0 then jsTrunc (s * 32768) else jsTrunc (s * 32767)

/-- `floatTo16BitPCM`: per-sample quantization over the whole buffer. -/
def floatTo16BitPCM (float32Array : List ℚ) : List Int :=
  float32Array.map floatTo16BitPCM1

/-- Little-endian bytes of a `DataView.setUint16` store. -/
def u16le (n : Nat) : List Nat := [n % 256, n / 256 % 256]

/-- Little-endian bytes of a `DataView.setUint32` store. -/
def u32le (n : Nat) : List Nat :=
  [n % 256, n / 256 % 256, n / 65536 % 256, n / 16777216 % 256]

/-- Little-endian bytes of a `DataView.setInt16` store of an
already-truncated 16-bit value. -/
def i16le (v : Int) : List Nat := u16le (v % 65536).toNat

/-- `writeString`: writes the UTF-16 code units of a string as bytes
(`view.setUint8(offset + i, string.charCodeAt(i))`). -/
def writeString (s : String) : List Nat := s.data.map (fun c => c.toNat % 256)

/-- `encodeWAV` (audio-recorder.tsx, WAV variant): the 44-byte RIFF/WAVE
header followed by the 16-bit little-endian PCM data.  The field order
matches the source's write offsets 0,4,8,12,16,20,22,24,28,32,34,36,40,44. -/
def encodeWAV (samples : List ℚ) (sampleRate : Nat) : List Nat :=
  let length := samples.length
  writeString "RIFF" ++
  u32le (36 + length * 2) ++
  writeString "WAVE" ++
  writeString "fmt " ++
  u32le 16 ++
  u16le 1 ++
  u16le 1 ++
  u32le sampleRate ++
  u32le (sampleRate * 2) ++
  u16le 2 ++
  u16le 16 ++
  writeString "data" ++
  u32le (length * 2) ++
  (floatTo16BitPCM samples).flatMap i16le

/-- The `len` bytes of a buffer starting at offset `off` (for stating
header-field facts). -/
def bytesAt (l : List Nat) (off len : Nat) : List Nat := (l.drop off).take len

/-- Value of a little-endian byte field (for stating header-field facts). -/
def decodeLE (l : List Nat) : Nat := l.foldr (fun b acc => b + 256 * acc) 0

/-- A JS `Blob`: a byte buffer plus its declared media type
(`Blob.size` is `data.length`). -/
structure Blob where
  data : List Nat
  type : String
deriving DecidableEq

/-- The spec-level lifecycle state of a capture session. -/
inductive RecState
  | Idle
  | Recording
  | Stopped
deriving DecidableEq

/-- State of the MediaRecorder-based recorder component: the React state
hooks (`isRecording`, `isPlaying`, `recordingTime`, `audioBlob`,
`audioUrl`, transcript state) together with the refs (`chunksRef`,
`timerRef`, `streamRef`, `mediaRecorderRef`, the captured `mimeType`,
and the playback element's position). `audioUrl` holds the blob the
object URL was created for; `timerRunning` models a live `timerRef`
interval and `streamHeld` a live `streamRef` with unstopped tracks. -/
structure MSession where
  isRecording : Bool
  isPlaying : Bool
  recordingTime : Nat
  audioBlob : Option Blob
  audioUrl : Option Blob
  chunks : List Blob
  timerRunning : Bool
  streamHeld : Bool
  mediaRecorderSet : Bool
  mimeType : String
  isTranscribing : Bool
  transcript : Option String
  transcriptError : Option String
  showTranscript : Bool
  playbackTime : Nat
deriving DecidableEq

/-- The component's initial state: every hook at its `useState` initial
value, every ref null/empty. -/
def initM : MSession :=
  { isRecording := false, isPlaying := false, recordingTime := 0,
    audioBlob := none, audioUrl := none, chunks := [],
    timerRunning := false, streamHeld := false, mediaRecorderSet := false,
    mimeType := "", isTranscribing := false, transcript := none,
    transcriptError := none, showTranscript := false, playbackTime := 0 }

/-- `mediaRecorder.ondataavailable`: appends the delivered blob to
`chunksRef` when `event.data.size > 0`, otherwise does nothing. -/
def ondataavailable (s : MSession) (eventData : Blob) : MSession :=
  if eventData.data.length > 0 then { s with chunks := s.chunks ++ [eventData] }
  else s

/-- `mediaRecorder.onstop`: builds `new Blob(chunksRef.current, {type:
mimeType})` (the concatenation of the chunk bytes, tagged with the
mime type chosen at start), stores it in `audioBlob`, creates the
object URL, and stops the stream's tracks. -/
def onstop (s : MSession) : MSession :=
  let blob : Blob := ⟨(s.chunks.map Blob.data).flatten, s.mimeType⟩
  { s with audioBlob := some blob, audioUrl := some blob, streamHeld := false }

/-- Error surfaced by a failed `startRecording` (the
`alert(\x22Unable to access microphone...\x22)` in the catch block). -/
inductive RecorderError
  | deviceAccess (msg : String)
deriving DecidableEq

/-- `startRecording`: awaits `getUserMedia`.  When the runtime grants the
stream it stores the stream, picks a mime type, creates the recorder,
clears `chunksRef`, starts recording, zeroes the timer display and starts
the interval.  When the runtime rejects, the catch block only logs and
alerts: no state field is touched. -/
def startRecording (s : MSession) (granted : Bool) (mimeType : String) :
    MSession × Option RecorderError :=
  if granted then
    ({ s with streamHeld := true, mediaRecorderSet := true,
              mimeType := mimeType, chunks := [],
              isRecording := true, recordingTime := 0,
              timerRunning := true }, none)
  else
    (s, some (.deviceAccess "Unable to access microphone. Please check permissions."))

/-- `stopRecording` (MediaRecorder variant): guarded by
`mediaRecorderRef.current && isRecording`; stops the recorder (which
fires `onstop`), clears `isRecording` and the timer interval. -/
def stopRecording (s : MSession) : MSession :=
  if s.mediaRecorderSet && s.isRecording then
    onstop { s with isRecording := false, timerRunning := false }
  else s

/-- `resetRecording` (transcribe variant): resets every `useState` hook
to its initial value and pauses/rewinds the playback element.  Note that
it does not touch `chunksRef`, `timerRef` or `streamRef`. -/
def resetRecording (s : MSession) : MSession :=
  { s with isRecording := false, isPlaying := false, recordingTime := 0,
           audioBlob := none, audioUrl := none,
           isTranscribing := false, transcript := none,
           transcriptError := none, showTranscript := false,
           playbackTime := 0 }

/-- Events driving the MediaRecorder-based session: a `startRecording`
call resolved with a granted or denied stream, a non-gated data delivery
from the active recorder, a `stopRecording` click, a `resetRecording`
click. -/
inductive MEvent
  | startOk (mimeType : String)
  | startFail
  | data (b : Blob)
  | stopClick
  | reset
deriving DecidableEq

/-- One step of the session: data deliveries only occur from an active
recorder (between start and stop); all handlers run to completion on the
single-threaded event loop. -/
def mStep (s : MSession) (e : MEvent) : MSession :=
  match e with
  | .startOk mt => (startRecording s true mt).1
  | .startFail => (startRecording s false "").1
  | .data b => if s.isRecording then ondataavailable s b else s
  | .stopClick => stopRecording s
  | .reset => resetRecording s

/-- Run an event trace from the freshly mounted component. -/
def runM (es : List MEvent) : MSession := es.foldl mStep initM

/-- The spec's state mapping over the component's hooks: `Recording`
while `isRecording`, otherwise `Stopped` when a finalized artifact
exists, otherwise `Idle`. -/
def specState (s : MSession) : RecState :=
  if s.isRecording then .Recording
  else if s.audioBlob.isSome then .Stopped
  else .Idle

/-- State of the WAV-variant recorder: raw `Float32Array` frames pushed
by the script processor's `onaudioprocess`, plus the stream/context/
processor resources. -/
structure WSession where
  isRecording : Bool
  isPlaying : Bool
  recordingTime : Nat
  audioBlob : Option Blob
  audioUrl : Option Blob
  audioData : List (List ℚ)
  timerRunning : Bool
  streamHeld : Bool
  processorConnected : Bool
  contextOpen : Bool
deriving DecidableEq

/-- Initial state of the WAV-variant component. -/
def initW : WSession :=
  { isRecording := false, isPlaying := false, recordingTime := 0,
    audioBlob := none, audioUrl := none, audioData := [],
    timerRunning := false, streamHeld := false,
    processorConnected := false, contextOpen := false }

/-- `onaudioprocess`: pushes a copy of the input buffer's channel data
onto `audioDataRef`. -/
def onaudioprocess (s : WSession) (frame : List ℚ) : WSession :=
  { s with audioData := s.audioData ++ [frame] }

/-- WAV-variant `startRecording` with a granted stream: acquires the
stream, opens the audio context, connects the processor, clears
`audioDataRef`, starts recording and the one-second timer. -/
def wavStartRecording (s : WSession) : WSession :=
  { s with streamHeld := true, contextOpen := true,
           processorConnected := true, audioData := [],
           isRecording := true, recordingTime := 0, timerRunning := true }

/-- `stopRecording` (WAV variant, source lines 458-507): guarded by
`isRecording` only.  Clears the timer, disconnects the processing graph;
then, only when `audioDataRef.current.length > 0`, concatenates the
frames, encodes them as WAV and stores the blob and its URL; finally
stops the stream's tracks. -/
def wavStopRecording (s : WSession) : WSession :=
  if s.isRecording then
    let s1 := { s with isRecording := false, timerRunning := false,
                       processorConnected := false, contextOpen := false }
    let s2 :=
      if s.audioData.length > 0 then
        let audioData := s.audioData.flatten
        let wavBlob : Blob := ⟨encodeWAV audioData 44100, "audio/wav"⟩
        { s1 with audioBlob := some wavBlob, audioUrl := some wavBlob }
      else s1
    { s2 with streamHeld := false }
  else s

/-- Decides whether `pat` occurs at the head of `l` (character-wise). -/
def matchesAt : List Char → List Char → Bool
  | [], _ => true
  | _ :: _, [] => false
  | p :: ps, c :: cs => p == c && matchesAt ps cs

/-- Decides whether `pat` occurs contiguously anywhere in `l`. -/
def hasSubstr (pat : List Char) : List Char → Bool
  | [] => pat.isEmpty
  | c :: cs => matchesAt pat (c :: cs) || hasSubstr pat cs

/-- JavaScript `String.prototype.includes`. -/
def jsIncludes (s pat : String) : Bool := hasSubstr pat.data s.data

/-- The extension choice inside `downloadAudio` (MediaRecorder
variants): `let extension = "mp3"` overridden by the ordered
`mimeType.includes` chain on the artifact's declared type. -/
def downloadExtension (b : Blob) : String :=
  let mimeType := b.type
  if jsIncludes mimeType "mp4" then "m4a"
  else if jsIncludes mimeType "webm" then "webm"
  else if jsIncludes mimeType "ogg" then "ogg"
  else if jsIncludes mimeType "wav" then "wav"
  else "mp3"

/-- The extension used by the WAV variant's `downloadAudio`, which
hard-codes `.wav`. -/
def wavDownloadExtension : String := "wav"

/-- Modelled from the spec: the `download()` extension mapping as the
spec states it — "media type containing \x22mp4\x22 → m4a; \x22webm\x22
→ webm; \x22ogg\x22 → ogg; \x22wav\x22 → wav; anything else → mp3" —
as a pure total function of the declared media type alone. -/
def specExtensionOf (mediaType : String) : String :=
  if jsIncludes mediaType "mp4" then "m4a"
  else if jsIncludes mediaType "webm" then "webm"
  else if jsIncludes mediaType "ogg" then "ogg"
  else if jsIncludes mediaType "wav" then "wav"
  else "mp3"

/-- Outcome of the `fetch` to `POST /api/transcribe` as observed by
`transcribeAudio`: either a response (with its status code and the JSON
body's optional `detail` and `transcript` fields) or a rejected fetch
carrying an error message. -/
inductive FetchOutcome
  | response (status : Nat) (detail : Option String) (transcript : Option String)
  | networkError (msg : String)
deriving DecidableEq

/-- `Response.ok`: status in the inclusive range 200-299. -/
def responseOk (status : Nat) : Bool := 200 ≤ status && status < 300

/-- JavaScript `a || b` on an optional string field: the default is used
when the field is absent or falsy (the empty string). -/
def jsOrElse (o : Option String) (d : String) : String :=
  match o with
  | none => d
  | some s => if s = "" then d else s

/-- `transcribeAudio` (transcribe variant, source lines 1288-1320):
no-op without an artifact; otherwise clears previous transcript state,
submits the blob, and either stores `data.transcript` and opens the
panel, or catches the thrown `Error(errorData.detail ||
\x22Transcription failed\x22)` (or the network error) and stores its
message in `transcriptError`; `finally` clears `isTranscribing`. -/
def transcribeAudio (s : MSession) (outcome : FetchOutcome) : MSession :=
  if s.audioBlob.isNone then s
  else
    let s1 := { s with isTranscribing := true, transcriptError := none,
                       transcript := none }
    match outcome with
    | .response status detail tr =>
      if responseOk status then
        { s1 with transcript := tr, showTranscript := true,
                  isTranscribing := false }
      else
        { s1 with transcriptError := some (jsOrElse detail "Transcription failed"),
                  isTranscribing := false }
    | .networkError msg =>
      { s1 with transcriptError := some msg, isTranscribing := false }

/-- Abstract (recording, artifact-present) flags predicted from an event
trace alone: start sets recording; an effective stop clears recording
and raises the artifact flag; reset clears both. -/
def flagsStep (p : Bool × Bool) (e : MEvent) : Bool × Bool :=
  match e with
  | .startOk _ => (true, p.2)
  | .startFail => p
  | .data _ => p
  | .stopClick => if p.1 then (false, true) else p
  | .reset => (false, false)

/-- The predicted flags of a whole trace, starting from a fresh mount. -/
def specFlags (es : List MEvent) : Bool × Bool :=
  es.foldl flagsStep (false, false)

/-- A recording in progress: a successful start followed by the
delivery of a list of data chunks. -/
def recordChunksRun (s0 : MSession) (mt : String) (bs : List Blob) : MSession :=
  bs.foldl ondataavailable (startRecording s0 true mt).1

/-- The spec's chunk scenario: three delivered chunks of 10, 20 and 15
bytes. -/
def c3Blobs : List Blob :=
  [⟨List.replicate 10 0, "audio/webm"⟩,
   ⟨List.replicate 20 0, "audio/webm"⟩,
   ⟨List.replicate 15 0, "audio/webm"⟩]

/-- A trace that records, stops, and then starts a second recording
directly from `Stopped`. -/
def c4Trace : List MEvent :=
  [.startOk "audio/webm", .data ⟨[7], "audio/webm"⟩, .stopClick,
   .startOk "audio/webm"]

/-- A WAV-variant session recording with one captured frame. -/
def c4Wav : WSession := { initW with isRecording := true, audioData := [[0]] }

/-- A stopped session holding one 10-byte chunk. -/
def c5Stopped : MSession :=
  runM [.startOk "audio/webm", .data ⟨List.replicate 10 0, "audio/webm"⟩,
        .stopClick]

/-- A session holding a finalized artifact, about to submit it. -/
def c9Session : MSession :=
  { initM with audioBlob := some ⟨[1, 2, 3], "audio/webm"⟩ }

/-! ### Helper lemmas -/

theorem decodeLE_u32le (m : Nat) (h : m < 4294967296) : decodeLE (u32le m) = m := by
  show m % 256 + 256 * (m / 256 % 256 + 256 * (m / 65536 % 256 +
    256 * (m / 16777216 % 256 + 256 * 0))) = m
  omega

theorem flatMap_i16le_length (l : List Int) : (l.flatMap i16le).length = 2 * l.length := by
  induction l with
  | nil => rfl
  | cons v l ih =>
    simp only [List.flatMap_cons, List.length_append, List.length_cons, ih,
      i16le, u16le, List.length_cons, List.length_nil]
    omega

theorem floatTo16BitPCM1_eq (x : ℚ) :
    floatTo16BitPCM1 x =
      if max (-1) (min 1 x) < 0 then ⌈max (-1) (min 1 x) * 32768⌉
      else ⌊max (-1) (min 1 x) * 32767⌋ := by
  unfold floatTo16BitPCM1 jsTrunc
  by_cases hs : max (-1) (min 1 x) < 0
  · have hneg : max (-1) (min 1 x) * 32768 < 0 :=
      mul_neg_of_neg_of_pos hs (by norm_num)
    simp [hs, hneg]
  · have h0 : (0 : ℚ) ≤ max (-1) (min 1 x) := le_of_not_lt hs
    have hnn : ¬ max (-1) (min 1 x) * 32767 < 0 :=
      not_lt.2 (mul_nonneg h0 (by norm_num))
    simp [hs, hnn]

theorem clip_mono {x y : ℚ} (h : x ≤ y) :
    max (-1) (min 1 x) ≤ max (-1) (min 1 y) :=
  max_le_max le_rfl (min_le_min le_rfl h)

theorem clip_lower (x : ℚ) : -1 ≤ max (-1) (min 1 x) := le_max_left _ _

theorem clip_upper (x : ℚ) : max (-1) (min 1 x) ≤ 1 :=
  max_le (by norm_num) (min_le_left _ _)

theorem ceil_neg_32768 : ⌈(-32768 : ℚ)⌉ = -32768 := by
  rw [show ((-32768 : ℚ)) = -(32768 : ℚ) from rfl, Int.ceil_neg]
  simp

theorem floor_32767 : ⌊(32767 : ℚ)⌋ = 32767 := by simp

theorem floatTo16BitPCM1_mono {x y : ℚ} (h : x ≤ y) :
    floatTo16BitPCM1 x ≤ floatTo16BitPCM1 y := by
  rw [floatTo16BitPCM1_eq, floatTo16BitPCM1_eq]
  have hab : max (-1) (min 1 x) ≤ max (-1) (min 1 y) := clip_mono h
  by_cases ha : max (-1) (min 1 x) < 0
  · by_cases hb : max (-1) (min 1 y) < 0
    · simp only [ha, hb, if_pos]
      exact Int.ceil_mono (mul_le_mul_of_nonneg_right hab (by norm_num))
    · simp only [ha, hb, if_pos, if_neg, ite_true, ite_false]
      have h1 : ⌈max (-1) (min 1 x) * 32768⌉ ≤ 0 := by
        rw [show ((0 : ℤ)) = ⌈(0 : ℚ)⌉ from by simp]
        exact Int.ceil_mono
          (mul_nonpos_iff.2 (Or.inr ⟨le_of_lt ha, by norm_num⟩))
      have h2 : (0 : ℤ) ≤ ⌊max (-1) (min 1 y) * 32767⌋ :=
        Int.floor_nonneg.2 (mul_nonneg (le_of_not_lt hb) (by norm_num))
      omega
  · have hb : ¬ max (-1) (min 1 y) < 0 := fun hb =>
      ha (lt_of_le_of_lt hab hb)
    simp only [ha, hb, if_neg, ite_false]
    exact Int.floor_mono (mul_le_mul_of_nonneg_right hab (by norm_num))

theorem floatTo16BitPCM1_range (x : ℚ) :
    -32768 ≤ floatTo16BitPCM1 x ∧ floatTo16BitPCM1 x ≤ 32767 := by
  rw [floatTo16BitPCM1_eq]
  by_cases hs : max (-1) (min 1 x) < 0
  · simp only [hs, ite_true]
    constructor
    · rw [show ((-32768 : ℤ)) = ⌈(-32768 : ℚ)⌉ from ceil_neg_32768.symm]
      refine Int.ceil_mono ?_
      have := mul_le_mul_of_nonneg_right (clip_lower x) (by norm_num : (0:ℚ) ≤ 32768)
      linarith
    · have h1 : ⌈max (-1) (min 1 x) * 32768⌉ ≤ 0 := by
        rw [show ((0 : ℤ)) = ⌈(0 : ℚ)⌉ from by simp]
        exact Int.ceil_mono
          (mul_nonpos_iff.2 (Or.inr ⟨le_of_lt hs, by norm_num⟩))
      omega
  · simp only [hs, ite_false]
    constructor
    · have h2 : (0 : ℤ) ≤ ⌊max (-1) (min 1 x) * 32767⌋ :=
        Int.floor_nonneg.2 (mul_nonneg (le_of_not_lt hs) (by norm_num))
      omega
    · rw [show ((32767 : ℤ)) = ⌊(32767 : ℚ)⌋ from floor_32767.symm]
      refine Int.floor_mono ?_
      have := mul_le_mul_of_nonneg_right (clip_upper x) (by norm_num : (0:ℚ) ≤ 32767)
      linarith

theorem floatTo16BitPCM1_one : floatTo16BitPCM1 1 = 32767 := by
  norm_num [floatTo16BitPCM1, jsTrunc, min_def, max_def]

theorem floatTo16BitPCM1_neg_one : floatTo16BitPCM1 (-1) = -32768 := by
  norm_num [floatTo16BitPCM1, jsTrunc, min_def, max_def, Int.ceil_neg]

theorem floatTo16BitPCM1_zero : floatTo16BitPCM1 0 = 0 := by
  norm_num [floatTo16BitPCM1, jsTrunc, min_def, max_def]

theorem floatTo16BitPCM1_clip_low {x : ℚ} (hx : x ≤ -1) :
    floatTo16BitPCM1 x = -32768 := by
  rw [floatTo16BitPCM1_eq]
  have h1 : min 1 x = x := min_eq_right (le_trans hx (by norm_num))
  have h2 : max (-1) x = -1 := max_eq_left hx
  rw [h1, h2]
  norm_num [Int.ceil_neg]

theorem floatTo16BitPCM1_clip_high {x : ℚ} (hx : 1 ≤ x) :
    floatTo16BitPCM1 x = 32767 := by
  rw [floatTo16BitPCM1_eq]
  have h1 : min 1 x = 1 := min_eq_left hx
  rw [h1]
  norm_num

/-! ### Claim theorems -/

set_option maxHeartbeats 2000000 in
/-- C1: encoding N sample frames yields a buffer of exactly 44 + 2N
bytes; bytes [0..4) spell "RIFF", [8..12) spell "WAVE", [36..40) spell
"data"; the RIFF chunk-size field at offset 4 equals 36 + 2N, the
data-chunk-size field at offset 40 equals 2N; the header declares
format tag PCM (1), channel count 1, sample rate 44100, block align 2
and bits-per-sample 16. -/
theorem encodeWAV_header_c1 (samples : List ℚ)
    (h : 36 + samples.length * 2 < 4294967296) :
    (encodeWAV samples 44100).length = 44 + 2 * samples.length ∧
    bytesAt (encodeWAV samples 44100) 0 4 = writeString "RIFF" ∧
    bytesAt (encodeWAV samples 44100) 8 4 = writeString "WAVE" ∧
    bytesAt (encodeWAV samples 44100) 36 4 = writeString "data" ∧
    decodeLE (bytesAt (encodeWAV samples 44100) 4 4) = 36 + 2 * samples.length ∧
    decodeLE (bytesAt (encodeWAV samples 44100) 40 4) = 2 * samples.length ∧
    decodeLE (bytesAt (encodeWAV samples 44100) 20 2) = 1 ∧
    decodeLE (bytesAt (encodeWAV samples 44100) 22 2) = 1 ∧
    decodeLE (bytesAt (encodeWAV samples 44100) 24 4) = 44100 ∧
    decodeLE (bytesAt (encodeWAV samples 44100) 32 2) = 2 ∧
    decodeLE (bytesAt (encodeWAV samples 44100) 34 2) = 16 := by
  refine ⟨?_, rfl, rfl, rfl, ?_, ?_, rfl, rfl, ?_, rfl, rfl⟩
  · have e : (encodeWAV samples 44100).length =
        ((floatTo16BitPCM samples).flatMap i16le).length + 44 := rfl
    rw [e, flatMap_i16le_length]
    simp only [floatTo16BitPCM, List.length_map]
    omega
  · rw [show bytesAt (encodeWAV samples 44100) 4 4 =
        u32le (36 + samples.length * 2) from rfl,
      decodeLE_u32le _ (by omega)]
    omega
  · rw [show bytesAt (encodeWAV samples 44100) 40 4 =
        u32le (samples.length * 2) from rfl,
      decodeLE_u32le _ (by omega)]
    omega
  · rw [show bytesAt (encodeWAV samples 44100) 24 4 = u32le 44100 from rfl]
    rfl

/-- C1 witness: the header facts hold for the concrete three-sample
buffer [1, 0, -1]. -/
theorem encodeWAV_header_c1_witness :
    (encodeWAV [1, 0, -1] 44100).length = 44 + 2 * ([1, 0, -1] : List ℚ).length ∧
    bytesAt (encodeWAV [1, 0, -1] 44100) 0 4 = writeString "RIFF" ∧
    decodeLE (bytesAt (encodeWAV [1, 0, -1] 44100) 40 4) =
      2 * ([1, 0, -1] : List ℚ).length :=
  ⟨(encodeWAV_header_c1 [1, 0, -1] (by norm_num)).1,
   (encodeWAV_header_c1 [1, 0, -1] (by norm_num)).2.1,
   (encodeWAV_header_c1 [1, 0, -1] (by norm_num)).2.2.2.2.2.1⟩

/-- C2: the quantizer clips to [-1, 1], scales negative clipped samples
by 32768 and non-negative ones by 32767, is monotonic, and maps 1 to
32767, -1 to -32768 and 0 to 0 (saturating beyond the clip range). -/
theorem floatTo16BitPCM_quantization_c2 (x y : ℚ) (h : x ≤ y) :
    floatTo16BitPCM1 x ≤ floatTo16BitPCM1 y ∧
    floatTo16BitPCM1 1 = 32767 ∧
    floatTo16BitPCM1 (-1) = -32768 ∧
    floatTo16BitPCM1 0 = 0 ∧
    (max (-1) (min 1 x) < 0 →
      floatTo16BitPCM1 x = ⌈max (-1) (min 1 x) * 32768⌉) ∧
    (0 ≤ max (-1) (min 1 x) →
      floatTo16BitPCM1 x = ⌊max (-1) (min 1 x) * 32767⌋) ∧
    (x ≤ -1 → floatTo16BitPCM1 x = -32768) ∧
    (1 ≤ y → floatTo16BitPCM1 y = 32767) := by
  refine ⟨floatTo16BitPCM1_mono h, floatTo16BitPCM1_one,
    floatTo16BitPCM1_neg_one, floatTo16BitPCM1_zero, ?_, ?_,
    fun hx => floatTo16BitPCM1_clip_low hx,
    fun hy => floatTo16BitPCM1_clip_high hy⟩
  · intro hneg
    rw [floatTo16BitPCM1_eq, if_pos hneg]
  · intro hpos
    rw [floatTo16BitPCM1_eq, if_neg (not_lt.2 hpos)]

/-- C2 witness: the quantization facts instantiated at the concrete
pair -3 ≤ 5. -/
theorem floatTo16BitPCM_quantization_c2_witness :
    floatTo16BitPCM1 (-3) ≤ floatTo16BitPCM1 5 ∧
    floatTo16BitPCM1 1 = 32767 ∧
    floatTo16BitPCM1 (-1) = -32768 ∧
    floatTo16BitPCM1 0 = 0 ∧
    (max (-1) (min 1 (-3 : ℚ)) < 0 →
      floatTo16BitPCM1 (-3) = ⌈max (-1) (min 1 (-3 : ℚ)) * 32768⌉) ∧
    (0 ≤ max (-1) (min 1 (-3 : ℚ)) →
      floatTo16BitPCM1 (-3) = ⌊max (-1) (min 1 (-3 : ℚ)) * 32767⌋) ∧
    ((-3 : ℚ) ≤ -1 → floatTo16BitPCM1 (-3) = -32768) ∧
    ((1 : ℚ) ≤ 5 → floatTo16BitPCM1 5 = 32767) :=
  floatTo16BitPCM_quantization_c2 (-3) 5 (by norm_num)

/-- C10: for every input sample (also outside [-1, 1]) the quantized
value lies in the signed 16-bit range [-32768, 32767], and the output
has exactly one entry per input sample. -/
theorem quantizer_safety_c10 (xs : List ℚ) :
    (floatTo16BitPCM xs).length = xs.length ∧
    ∀ v ∈ floatTo16BitPCM xs, -32768 ≤ v ∧ v ≤ 32767 := by
  constructor
  · simp [floatTo16BitPCM]
  · intro v hv
    simp only [floatTo16BitPCM, List.mem_map] at hv
    obtain ⟨x, _, rfl⟩ := hv
    exact floatTo16BitPCM1_range x

/-- C10 witness: the out-of-range input 2 is quantized into the 16-bit
range. -/
theorem quantizer_safety_c10_witness :
    -32768 ≤ floatTo16BitPCM1 2 ∧ floatTo16BitPCM1 2 ≤ 32767 :=
  (quantizer_safety_c10 [2, -3, 1/2]).2 (floatTo16BitPCM1 2)
    (by simp [floatTo16BitPCM])

theorem ondataavailable_preserves (s : MSession) (b : Blob) :
    (ondataavailable s b).isRecording = s.isRecording ∧
    (ondataavailable s b).mediaRecorderSet = s.mediaRecorderSet ∧
    (ondataavailable s b).mimeType = s.mimeType ∧
    (ondataavailable s b).audioBlob = s.audioBlob := by
  by_cases h : b.data.length > 0 <;> simp [ondataavailable, h]

theorem foldl_ondataavailable_chunks (bs : List Blob) (s : MSession) :
    (bs.foldl ondataavailable s).chunks =
      s.chunks ++ bs.filter (fun b => decide (b.data.length > 0)) := by
  induction bs generalizing s with
  | nil => simp
  | cons b bs ih =>
    rw [List.foldl_cons, ih]
    by_cases h : b.data.length > 0 <;>
      simp [ondataavailable, h, List.filter_cons]

theorem foldl_ondataavailable_preserves (bs : List Blob) (s : MSession) :
    (bs.foldl ondataavailable s).isRecording = s.isRecording ∧
    (bs.foldl ondataavailable s).mediaRecorderSet = s.mediaRecorderSet ∧
    (bs.foldl ondataavailable s).mimeType = s.mimeType := by
  induction bs generalizing s with
  | nil => exact ⟨rfl, rfl, rfl⟩
  | cons b bs ih =>
    rw [List.foldl_cons]
    obtain ⟨h1, h2, h3⟩ := ih (ondataavailable s b)
    obtain ⟨p1, p2, p3, _⟩ := ondataavailable_preserves s b
    exact ⟨h1.trans p1, h2.trans p2, h3.trans p3⟩

theorem mStep_flags (s : MSession) (e : MEvent) (p : Bool × Bool)
    (hinv : s.isRecording = true → s.mediaRecorderSet = true)
    (h1 : s.isRecording = p.1) (h2 : s.audioBlob.isSome = p.2) :
    ((mStep s e).isRecording = true → (mStep s e).mediaRecorderSet = true) ∧
    (mStep s e).isRecording = (flagsStep p e).1 ∧
    (mStep s e).audioBlob.isSome = (flagsStep p e).2 := by
  cases e with
  | startOk mt => exact ⟨fun _ => rfl, rfl, h2⟩
  | startFail => exact ⟨hinv, h1, h2⟩
  | data b =>
    have hms : mStep s (.data b) =
        if s.isRecording then ondataavailable s b else s := rfl
    by_cases hr : s.isRecording = true
    · rw [hms, if_pos hr]
      obtain ⟨p1, p2, _, p4⟩ := ondataavailable_preserves s b
      refine ⟨fun h => ?_, p1.trans h1, ?_⟩
      · rw [p2]; exact hinv (p1.symm.trans h)
      · rw [p4]; exact h2
    · rw [hms, if_neg hr]
      exact ⟨hinv, h1, h2⟩
  | stopClick =>
    have hms : mStep s .stopClick = stopRecording s := rfl
    by_cases hr : s.isRecording = true
    · have hm := hinv hr
      have hguard : (s.mediaRecorderSet && s.isRecording) = true := by
        rw [hm, hr]; rfl
      have hs : stopRecording s =
          onstop { s with isRecording := false, timerRunning := false } := by
        unfold stopRecording
        rw [if_pos hguard]
      have hp1 : p.1 = true := h1.symm.trans hr
      rw [hms, hs]
      refine ⟨fun habs => ?_, ?_, ?_⟩
      · simp [onstop] at habs
      · simp [onstop, flagsStep, hp1]
      · simp [onstop, flagsStep, hp1]
    · have hrf : s.isRecording = false := by
        revert hr; cases s.isRecording <;> simp
      have hp1 : p.1 = false := h1.symm.trans hrf
      have hs : stopRecording s = s := by
        simp [stopRecording, hrf]
      rw [hms, hs]
      simp only [flagsStep, hp1, Bool.false_eq_true, if_false, ite_false]
      exact ⟨hinv, hrf, h2⟩
  | reset =>
    refine ⟨fun habs => ?_, rfl, rfl⟩
    simp [mStep, resetRecording] at habs

theorem foldl_mStep_flags (es : List MEvent) :
    ∀ (s : MSession) (p : Bool × Bool),
    (s.isRecording = true → s.mediaRecorderSet = true) →
    s.isRecording = p.1 → s.audioBlob.isSome = p.2 →
    (es.foldl mStep s).isRecording = (es.foldl flagsStep p).1 ∧
    (es.foldl mStep s).audioBlob.isSome = (es.foldl flagsStep p).2 := by
  induction es with
  | nil => exact fun s p _ h1 h2 => ⟨h1, h2⟩
  | cons e es ih =>
    intro s p hinv h1 h2
    obtain ⟨i1, i2, i3⟩ := mStep_flags s e p hinv h1 h2
    exact ih (mStep s e) (flagsStep p e) i1 i2 i3

/-- C3: after a start and a list of delivered chunks, the chunk
sequence is exactly the non-empty deliveries in arrival order; stop
finalizes the artifact as their concatenation (tagged with the chosen
mime type) whose byte length is the sum of the kept chunk sizes; and
the 10/20/15-byte scenario yields a 45-byte artifact in `Stopped`. -/
theorem chunk_accumulation_c3 (s0 : MSession) (mt : String) (bs : List Blob) :
    (recordChunksRun s0 mt bs).chunks =
      bs.filter (fun b => decide (b.data.length > 0)) ∧
    (stopRecording (recordChunksRun s0 mt bs)).audioBlob =
      some ⟨((bs.filter (fun b => decide (b.data.length > 0))).map
        Blob.data).flatten, mt⟩ ∧
    ((stopRecording (recordChunksRun s0 mt bs)).audioBlob.map
        fun b => b.data.length) =
      some (((bs.filter (fun b => decide (b.data.length > 0))).map
        fun b => b.data.length).sum) ∧
    ((stopRecording (recordChunksRun initM "audio/webm" c3Blobs)).audioBlob.map
        fun b => b.data.length) = some 45 ∧
    specState (stopRecording (recordChunksRun initM "audio/webm" c3Blobs)) =
      RecState.Stopped := by
  have hch : (recordChunksRun s0 mt bs).chunks =
      bs.filter (fun b => decide (b.data.length > 0)) := by
    rw [recordChunksRun, foldl_ondataavailable_chunks]
    rfl
  obtain ⟨hr, hm, hmt⟩ :=
    foldl_ondataavailable_preserves bs (startRecording s0 true mt).1
  have hguard : ((recordChunksRun s0 mt bs).mediaRecorderSet &&
      (recordChunksRun s0 mt bs).isRecording) = true := by
    rw [recordChunksRun, hm, hr]; rfl
  have hstop : stopRecording (recordChunksRun s0 mt bs) =
      onstop { recordChunksRun s0 mt bs with
               isRecording := false, timerRunning := false } := by
    unfold stopRecording
    rw [if_pos hguard]
  have hmt2 : (recordChunksRun s0 mt bs).mimeType = mt := hmt
  have hblob : (stopRecording (recordChunksRun s0 mt bs)).audioBlob =
      some ⟨((bs.filter (fun b => decide (b.data.length > 0))).map
        Blob.data).flatten, mt⟩ := by
    rw [hstop]
    show some (Blob.mk
        (((recordChunksRun s0 mt bs).chunks.map Blob.data).flatten)
        ((recordChunksRun s0 mt bs).mimeType)) =
      some (Blob.mk
        (((bs.filter (fun b => decide (b.data.length > 0))).map
          Blob.data).flatten) mt)
    rw [hch, hmt2]
  refine ⟨hch, hblob, ?_, by decide, by decide⟩
  rw [hblob]
  simp only [Option.map_some', List.length_flatten, List.map_map]
  rfl

/-- C4 counterexample: the claim fails on the code in two reachable
situations.  In the WAV variant, stopping a recording during which zero
sample frames were captured leaves the artifact undefined even though
the session has left `Recording`; and in the MediaRecorder variant,
starting a new recording directly from `Stopped` leaves the previous
artifact defined while the session is `Recording`. -/
theorem artifact_iff_stopped_c4_counterexample :
    (wavStartRecording initW).isRecording = true ∧
    (wavStartRecording initW).audioData = [] ∧
    (wavStopRecording (wavStartRecording initW)).isRecording = false ∧
    (wavStopRecording (wavStartRecording initW)).audioBlob = none ∧
    (runM c4Trace).isRecording = true ∧
    (runM c4Trace).audioBlob.isSome = true := by
  refine ⟨rfl, rfl, rfl, rfl, by decide, by decide⟩

/-- C4 amended: in the MediaRecorder variant the artifact is defined
iff an effective stop has occurred since the last reset (so stop after
zero chunks still defines it, but it also stays defined while a
recording restarted from `Stopped` is in progress); in the WAV variant
a stop from `Recording` defines the artifact exactly when at least one
sample frame was captured, and otherwise leaves it unchanged
(undefined in a first recording). -/
theorem artifact_iff_stopped_c4_amended (es : List MEvent) (w : WSession)
    (hw : w.isRecording = true) :
    (runM es).isRecording = (specFlags es).1 ∧
    (runM es).audioBlob.isSome = (specFlags es).2 ∧
    (wavStopRecording w).audioBlob =
      (if w.audioData.length > 0
       then some ⟨encodeWAV w.audioData.flatten 44100, "audio/wav"⟩
       else w.audioBlob) := by
  have hm := foldl_mStep_flags es initM (false, false)
    (by intro h; simp [initM] at h) rfl rfl
  refine ⟨hm.1, hm.2, ?_⟩
  by_cases hd : w.audioData.length > 0 <;> simp [wavStopRecording, hw, hd]

/-- C4 witness: the amended statement instantiated at the
record-stop-restart trace and at a WAV session with one captured
frame. -/
theorem artifact_iff_stopped_c4_witness :
    (runM c4Trace).isRecording = (specFlags c4Trace).1 ∧
    (runM c4Trace).audioBlob.isSome = (specFlags c4Trace).2 ∧
    (wavStopRecording c4Wav).audioBlob =
      (if c4Wav.audioData.length > 0
       then some ⟨encodeWAV c4Wav.audioData.flatten 44100, "audio/wav"⟩
       else c4Wav.audioBlob) :=
  artifact_iff_stopped_c4_amended c4Trace c4Wav rfl

/-- C5 counterexample: `reset()` from a `Stopped` session holding one
10-byte chunk leaves the chunk sequence non-empty, against the claim's
"empty chunk sequence". -/
theorem reset_c5_counterexample :
    specState c5Stopped = RecState.Stopped ∧
    (resetRecording c5Stopped).chunks =
      [⟨List.replicate 10 0, "audio/webm"⟩] ∧
    (resetRecording c5Stopped).chunks ≠ [] := by
  refine ⟨by decide, by decide, by decide⟩

/-- C5 amended: `reset()` from any state stops playback, rewinds it,
releases the playback reference, returns to `Idle` with an undefined
artifact and zero elapsed time — but leaves the chunk sequence exactly
as it was (it is only cleared by the next start). -/
theorem reset_c5_amended (s : MSession) :
    (resetRecording s).isRecording = false ∧
    (resetRecording s).isPlaying = false ∧
    (resetRecording s).recordingTime = 0 ∧
    (resetRecording s).audioBlob = none ∧
    (resetRecording s).audioUrl = none ∧
    (resetRecording s).playbackTime = 0 ∧
    (resetRecording s).chunks = s.chunks ∧
    specState (resetRecording s) = RecState.Idle :=
  ⟨rfl, rfl, rfl, rfl, rfl, rfl, rfl, rfl⟩

/-- C6: when device acquisition is denied, `startRecording` surfaces a
device-access error to the caller, changes no state field, and leaves
an `Idle` session with no running timer and no held device stream. -/
theorem start_failure_c6 (s : MSession) (mt : String)
    (hrec : s.isRecording = false) (htimer : s.timerRunning = false)
    (hstream : s.streamHeld = false) (hblob : s.audioBlob = none) :
    (startRecording s false mt).2 =
      some (RecorderError.deviceAccess
        "Unable to access microphone. Please check permissions.") ∧
    (startRecording s false mt).1 = s ∧
    specState (startRecording s false mt).1 = RecState.Idle ∧
    (startRecording s false mt).1.timerRunning = false ∧
    (startRecording s false mt).1.streamHeld = false := by
  refine ⟨rfl, rfl, ?_, htimer, hstream⟩
  show specState s = RecState.Idle
  simp [specState, hrec, hblob]

/-- C6 witness: the failed-start facts at the freshly mounted session. -/
theorem start_failure_c6_witness :
    (startRecording initM false "audio/webm").2 =
      some (RecorderError.deviceAccess
        "Unable to access microphone. Please check permissions.") ∧
    (startRecording initM false "audio/webm").1 = initM ∧
    specState (startRecording initM false "audio/webm").1 = RecState.Idle ∧
    (startRecording initM false "audio/webm").1.timerRunning = false ∧
    (startRecording initM false "audio/webm").1.streamHeld = false :=
  start_failure_c6 initM "audio/webm" rfl rfl rfl rfl

/-- C7: `stop()` while not recording (`Idle` or already `Stopped`) is a
no-op in both variants: the session state is returned unchanged. -/
theorem stop_noop_c7 (s : MSession) (w : WSession)
    (hs : s.isRecording = false) (hw : w.isRecording = false) :
    stopRecording s = s ∧ wavStopRecording w = w := by
  constructor
  · simp [stopRecording, hs]
  · simp [wavStopRecording, hw]

/-- C7 witness: stopping the freshly mounted sessions changes nothing. -/
theorem stop_noop_c7_witness :
    stopRecording initM = initM ∧ wavStopRecording initW = initW :=
  stop_noop_c7 initM initW rfl rfl

/-- C8: the download extension is a pure total function of the
artifact's declared media type, equal to the spec's ordered mapping
(mp4 → m4a, webm → webm, ogg → ogg, wav → wav, else mp3); the WAV
variant's hard-coded extension agrees with the mapping at its fixed
"audio/wav" type; and each branch is exercised on a concrete type. -/
theorem download_extension_c8 (b : Blob) :
    downloadExtension b = specExtensionOf b.type ∧
    wavDownloadExtension = specExtensionOf "audio/wav" ∧
    downloadExtension ⟨[], "audio/mp4"⟩ = "m4a" ∧
    downloadExtension ⟨[], "audio/webm; codecs=opus"⟩ = "webm" ∧
    downloadExtension ⟨[], "audio/ogg"⟩ = "ogg" ∧
    downloadExtension ⟨[], "audio/wav"⟩ = "wav" ∧
    downloadExtension ⟨[], "audio/flac"⟩ = "mp3" := by
  refine ⟨rfl, by decide, by decide, by decide, by decide, by decide, by decide⟩

/-- C9: a non-2xx response whose JSON body carries a non-empty `detail`
makes the user-visible error message equal that detail verbatim, while
the artifact and the chunk sequence are left unchanged, so the
recording can be resubmitted without re-recording. -/
theorem transcribe_error_c9 (s : MSession) (b : Blob) (d : String)
    (status : Nat) (hb : s.audioBlob = some b) (hd : d ≠ "")
    (hstatus : responseOk status = false) :
    (transcribeAudio s (.response status (some d) none)).transcriptError =
      some d ∧
    (transcribeAudio s (.response status (some d) none)).audioBlob = some b ∧
    (transcribeAudio s (.response status (some d) none)).isTranscribing =
      false ∧
    (transcribeAudio s (.response status (some d) none)).chunks = s.chunks := by
  have hn : s.audioBlob.isNone = false := by rw [hb]; rfl
  simp [transcribeAudio, hn, hstatus, jsOrElse, hd, hb]

/-- C9 witness: a 413 response with detail "file too large" produces
exactly that message and preserves the artifact. -/
theorem transcribe_error_c9_witness :
    (transcribeAudio c9Session
      (.response 413 (some "file too large") none)).transcriptError =
      some "file too large" ∧
    (transcribeAudio c9Session
      (.response 413 (some "file too large") none)).audioBlob =
      some ⟨[1, 2, 3], "audio/webm"⟩ ∧
    (transcribeAudio c9Session
      (.response 413 (some "file too large") none)).isTranscribing = false ∧
    (transcribeAudio c9Session
      (.response 413 (some "file too large") none)).chunks =
      c9Session.chunks :=
  transcribe_error_c9 c9Session ⟨[1, 2, 3], "audio/webm"⟩ "file too large"
    413 rfl (by decide) rfl

end Theranotes
